import Mathlib

/-!
Shallow embedding of the servo bus driver in `robarm.py` (class `XArm`).

Modelling conventions:
* Python byte lists are `List Int`; all arithmetic on positions and times is
  over `Int` (Python integers are unbounded; `v & 0xFF` and `v >> 8` are
  `Int.emod v 256` and `Int.ediv v 256`, which agree with Python's floor
  semantics on all integers).
* A process abort is an explicit outcome: `PyExit.sysExit n` models
  `sys.exit(n)` and `PyExit.exn s` models an uncaught Python exception of
  type `s` (`ValueError`, `AssertionError`, `IndexError`, ...).  Functions
  that can abort return `Except PyExit α`, or pair the post-state with
  `Option PyExit` when mutation can happen before the abort.
* The HID transport is the excluded collaborator; a boolean parameter
  `writeOk` gives the outcome of `self.dev.write` (`false` = the write
  raises), and replies read from the device are passed in as byte lists.
* The driver state `ArmState` is the mutable `servoinfo` table plus the
  trace of device events (writes issued, reads performed), so ordering
  claims are claims about the trace.
-/

/-- Outcome of a Python-level abort: `sys.exit(code)` or an uncaught
exception with the given type name. -/
inductive PyExit where
  | sysExit : Nat → PyExit
  | exn : String → PyExit
deriving Repr, DecidableEq

deriving instance DecidableEq for Except

/-- One entry of `XArm.servoinfo`: a dict
`{'id': .., 'name': .., 'min': .., 'mid': .., 'max': .., 'pos': ..}`.
`pos` starts at `-1`, meaning "never commanded". -/
structure ServoInfo where
  id : Int
  name : String
  min : Int
  mid : Int
  max : Int
  pos : Int
deriving Repr, DecidableEq

/-- `XArm.sn`, the servo name table. -/
def sn : List String := ["claw", "wristroll", "wristpitch", "elbow", "shoulder", "base"]

/-- The initial `XArm.servoinfo` table. -/
def servoinfoInit : List ServoInfo :=
  [ ⟨1, "claw",       1310, 1500, 2500, -1⟩,
    ⟨2, "wristroll",  400,  1430, 2600, -1⟩,
    ⟨3, "wristpitch", 500,  1500, 2500, -1⟩,
    ⟨4, "elbow",      400,  1670, 2600, -1⟩,
    ⟨5, "shoulder",   400,  1480, 2600, -1⟩,
    ⟨6, "base",       400,  1570, 2600, -1⟩ ]

/-- Default dict used only to totalise list indexing; never reached when the
index is in range. -/
def dummyServo : ServoInfo := ⟨0, "", 0, 0, 0, -1⟩

/-- An event on the HID transport: a packet written, or a reply read. -/
inductive DevEvent where
  | write : List Int → DevEvent
  | read : List Int → DevEvent
deriving Repr, DecidableEq

/-- Mutable driver state: the `servoinfo` table plus the transport trace. -/
structure ArmState where
  servos : List ServoInfo
  trace : List DevEvent
deriving Repr, DecidableEq

/-- The freshly constructed driver. -/
def armInit : ArmState := { servos := servoinfoInit, trace := [] }

/-- A servo reference, Python duck typing made explicit: `XArm` methods accept
either an `int` id or a `str` (digits or name). -/
inductive ServoRef where
  | int : Int → ServoRef
  | str : String → ServoRef
deriving Repr, DecidableEq

/-- A position argument to `moveTo`: an `int` or a `str`
(landmark or digits). -/
inductive PosArg where
  | int : Int → PosArg
  | str : String → PosArg
deriving Repr, DecidableEq

/-- `re.match('^[0-9]*$', s)` succeeds: every character is a decimal digit
(vacuously true for the empty string). -/
def isDigitsOnly (s : String) : Bool := s.toList.all (fun c => c.isDigit)

/-- Python `int(s)` on a string of decimal digits. -/
def digitsToNat (s : String) : Nat :=
  s.toList.foldl (fun a c => 10 * a + (c.toNat - 48)) 0

/-- `XArm.itos`: split a value into `(v & 0xFF, v >> 8)`. -/
def itos (v : Int) : Int × Int := (Int.emod v 256, Int.ediv v 256)

/-- `XArm.servoIndex`: resolve a servo reference to a 0-based index.
A digit-only string is parsed with `int` (which raises `ValueError` on the
empty string), a known name resolves through `sn.index`, anything else leaves
`s = -1`; an out-of-range index prints an error and calls `sys.exit(1)`. -/
def servoIndex (ref : ServoRef) : Except PyExit Int :=
  let s : Except PyExit Int :=
    match ref with
    | .str id =>
        if isDigitsOnly id then
          if id = "" then .error (.exn "ValueError")
          else .ok ((digitsToNat id : Int) - 1)
        else if id ∈ sn then .ok ((sn.indexOf id : Nat) : Int)
        else .ok (-1)
    | .int id => .ok (id - 1)
  match s with
  | .error e => .error e
  | .ok s =>
      if s < 0 ∨ (sn.length : Int) ≤ s then .error (.sysExit 1) else .ok s

/-- `XArm.clipPos`: clamp a requested position into the servo's
`[min, max]`. -/
def clipPos (info : ServoInfo) (pos : Int) : Int :=
  if pos < info.min then info.min
  else if pos > info.max then info.max
  else pos

/-- The body of `moveTo`'s position handling: a string is first checked
against the landmarks `min`/`mid`/`max`, then against the digit regex
(`int('')` raises `ValueError`), and otherwise prints an error and calls
`sys.exit(1)`. -/
def resolvePos (s : ServoInfo) (pos : PosArg) : Except PyExit Int :=
  match pos with
  | .int p => .ok p
  | .str p =>
      if p = "min" then .ok s.min
      else if p = "mid" then .ok s.mid
      else if p = "max" then .ok s.max
      else if isDigitsOnly p then
        if p = "" then .error (.exn "ValueError")
        else .ok (digitsToNat p : Int)
      else .error (.sysExit 1)

/-- The Move packet `[0x55, 0x55, 8, 0x03, 1, t_lsb, t_msb, id, p_lsb, p_msb]`
built at the end of `moveTo` / `moveRel`. -/
def movePacket (sid pos tm : Int) : List Int :=
  let t := itos tm
  let p := itos pos
  [0x55, 0x55, 8, 0x03, 1, t.1, t.2, sid, p.1, p.2]

/-- `XArm.moveTo`: resolve the servo, resolve/clip the position, store the
clipped position in `servoinfo[s]['pos']`, then write the Move packet.
`writeOk` is the transport collaborator's outcome for `self.dev.write`; the
state mutation happens before the write, so it persists even when the write
raises. -/
def moveTo (st : ArmState) (ref : ServoRef) (pos : PosArg) (tm : Int)
    (writeOk : Bool) : ArmState × Option PyExit :=
  match servoIndex ref with
  | .error e => (st, some e)
  | .ok si =>
      let i := si.toNat
      let s := st.servos.getD i dummyServo
      match resolvePos s pos with
      | .error e => (st, some e)
      | .ok p =>
          let newpos := clipPos s p
          let s' := { s with pos := newpos }
          let st1 := { st with servos := st.servos.set i s' }
          if writeOk then
            ({ st1 with
                trace := st1.trace ++ [.write (movePacket s'.id newpos tm)] },
              none)
          else (st1, some (.exn "TransportError"))

/-- `XArm.moveRel`: if the tracked position is negative (never commanded) the
method silently `return`s; otherwise it clips `pos + dpos`, stores it, and
writes a Move packet exactly as `moveTo` does. -/
def moveRel (st : ArmState) (ref : ServoRef) (dpos tm : Int)
    (writeOk : Bool) : ArmState × Option PyExit :=
  match servoIndex ref with
  | .error e => (st, some e)
  | .ok si =>
      let i := si.toNat
      let s := st.servos.getD i dummyServo
      if s.pos < 0 then (st, none)
      else
        let newpos := clipPos s (s.pos + dpos)
        let s' := { s with pos := newpos }
        let st1 := { st with servos := st.servos.set i s' }
        if writeOk then
          ({ st1 with
              trace := st1.trace ++ [.write (movePacket s'.id newpos tm)] },
            none)
        else (st1, some (.exn "TransportError"))

/-- `XArm.move_all`'s loop body over the index list: `moveTo(i+1, poss[i])`
for each `i`, where `poss[i]` raises `IndexError` when out of range. -/
def move_all_go (poss : List Int) (tm : Int) (writeOk : Bool) :
    List Nat → ArmState → ArmState × Option PyExit
  | [], st => (st, none)
  | i :: is, st =>
      match poss.get? i with
      | none => (st, some (.exn "IndexError"))
      | some p =>
          match moveTo st (.int ((i : Int) + 1)) (.int p) tm writeOk with
          | (st', none) => move_all_go poss tm writeOk is st'
          | (st', some e) => (st', some e)

/-- `XArm.move_all`: `for i in range(6): moveTo(id=i+1, pos=poss[i], time)`. -/
def move_all (st : ArmState) (poss : List Int) (tm : Int) (writeOk : Bool) :
    ArmState × Option PyExit :=
  move_all_go poss tm writeOk (List.range 6) st

/-- The fixed PowerOff packet `[0x55, 0x55, 9, 20, 6, 1, 2, 3, 4, 5, 6]`. -/
def powerOffPacket : List Int := [0x55, 0x55, 9, 20, 6, 1, 2, 3, 4, 5, 6]

/-- `XArm.servos_off`: write the single fixed PowerOff packet; the servo
table is untouched. -/
def servos_off (st : ArmState) (writeOk : Bool) : ArmState × Option PyExit :=
  if writeOk then ({ st with trace := st.trace ++ [.write powerOffPacket] }, none)
  else (st, some (.exn "TransportError"))

/-- The decode loop of `XArm.read_pos` over an index list: for each `i` read
`ret[5+3*i]` (the id, discarded), `ret[5+3*i+1]`, `ret[5+3*i+2]` and append
`(p_msb << 8) + p_lsb`; a missing index raises `IndexError`. -/
def read_pos_groups (ret : List Int) : List Nat → Except PyExit (List Int)
  | [] => .ok []
  | i :: is =>
      match ret.get? (5 + 3 * i), ret.get? (5 + 3 * i + 1),
            ret.get? (5 + 3 * i + 2) with
      | some _, some lo, some hi =>
          match read_pos_groups ret is with
          | .ok rest => .ok ((hi * 256 + lo) :: rest)
          | .error e => .error e
      | _, _, _ => .error (.exn "IndexError")

/-- The decoding part of `XArm.read_pos` applied to the reply bytes:
`count = ret[4]` (raising `IndexError` when the reply has fewer than 5
bytes), `assert count == 6` (raising `AssertionError` otherwise), then the
loop over `range(6)`; the returned list holds the six positions only — the
id bytes are read into a local and discarded. -/
def read_pos_decode (ret : List Int) : Except PyExit (List Int) :=
  match ret.get? 4 with
  | none => .error (.exn "IndexError")
  | some count =>
      if count = 6 then read_pos_groups ret (List.range 6)
      else .error (.exn "AssertionError")

/-- Python slice `l[a:b]` (for `0 ≤ a ≤ b`). -/
def pySlice (l : List Int) (a b : Nat) : List Int := (l.take b).drop a

/-- `struct.unpack('H', bs)`: succeeds only on exactly two bytes, producing
the 16-bit little-endian value; anything else raises `struct.error`. -/
def unpackU16LE : List Int → Except PyExit Int
  | [lo, hi] => .ok (lo + 256 * hi)
  | _ => .error (.exn "StructError")

/-- The decoding part of `XArm.getBattery` applied to the reply bytes:
`struct.unpack('H', ret[4:6])` inside `try/except`, returning `-1` on any
failure. -/
def getBattery (ret : List Int) : Int :=
  match unpackU16LE (pySlice ret 4 6) with
  | .ok v => v
  | .error _ => -1

/-- `XArm.rest`: `move_all` with every servo's `mid` at time 1500, a
`time.sleep(2)` (no transport event), then `servos_off`. -/
def rest (st : ArmState) (writeOk : Bool) : ArmState × Option PyExit :=
  let mids :=
    [ (st.servos.getD 0 dummyServo).mid,
      (st.servos.getD 1 dummyServo).mid,
      (st.servos.getD 2 dummyServo).mid,
      (st.servos.getD 3 dummyServo).mid,
      (st.servos.getD 4 dummyServo).mid,
      (st.servos.getD 5 dummyServo).mid ]
  match move_all st mids 1500 writeOk with
  | (st', some e) => (st', some e)
  | (st', none) => servos_off st' writeOk

/-- The servo dict the driver works on for a 0-based index. -/
def servoAt (st : ArmState) (i : Nat) : ServoInfo := st.servos.getD i dummyServo

/-- A reply carrying six `(id, lo, hi)` groups with ids 1..6 and the
little-endian bytes of the six positions, after the 5-byte header whose
count field (offset 4) is 6. -/
def mkPosReply (a b c d e f : Int) : List Int :=
  [0x55, 0x55, 0x15, 0x15, 6,
   1, Int.emod a 256, Int.ediv a 256,
   2, Int.emod b 256, Int.ediv b 256,
   3, Int.emod c 256, Int.ediv c 256,
   4, Int.emod d 256, Int.ediv d 256,
   5, Int.emod e 256, Int.ediv e 256,
   6, Int.emod f 256, Int.ediv f 256]

example : servoIndex (.str "3") = .ok 2 := by decide
example : servoIndex (.int 3) = .ok 2 := by decide
example : servoIndex (.str "elbow") = .ok 3 := by decide
example : servoIndex (.str "7") = .error (.sysExit 1) := by decide
example : servoIndex (.str "bogus") = .error (.sysExit 1) := by decide
example : servoIndex (.str "") = .error (.exn "ValueError") := by decide

theorem servoIndex_int_ok (n : Int) (h1 : 1 ≤ n) (h2 : n ≤ 6) :
    servoIndex (.int n) = .ok (n - 1) := by
  unfold servoIndex
  dsimp only
  have hlen : (sn.length : Int) = 6 := by rfl
  rw [hlen, if_neg (by omega)]

theorem clipPos_bounds (info : ServoInfo) (p : Int) (h : info.min ≤ info.max) :
    info.min ≤ clipPos info p ∧ clipPos info p ≤ info.max := by
  unfold clipPos
  split_ifs <;> omega

theorem clipPos_id_of_in_range (info : ServoInfo) (p : Int)
    (hl : info.min ≤ p) (hr : p ≤ info.max) : clipPos info p = p := by
  unfold clipPos
  split_ifs <;> omega

theorem servoAt_mem (st : ArmState) (i : Nat) (h : i < st.servos.length) :
    servoAt st i ∈ st.servos := by
  unfold servoAt
  rw [List.getD_eq_getElem st.servos dummyServo h]
  exact List.getElem_mem h

/-- C5: `moveTo` on servo 4 (descriptor max 2600) at position 2600 with
duration 500 writes exactly the bytes
`55 55 08 03 01 F4 01 04 28 0A` and succeeds. -/
theorem moveTo_encodes_exact_bytes :
    (moveTo armInit (.int 4) (.int 2600) 500 true).2 = none ∧
    (moveTo armInit (.int 4) (.int 2600) 500 true).1.trace =
      [DevEvent.write [0x55, 0x55, 0x08, 0x03, 0x01, 0xF4, 0x01, 0x04, 0x28, 0x0A]] := by
  constructor
  · decide
  · decide

/-- C9: `servos_off` appends exactly one PowerOff packet with the fixed
bytes `55 55 09 14 06 01 02 03 04 05 06` to the trace and leaves the servo
table (the tracked positions) unchanged, whether or not the transport write
succeeds. -/
theorem servos_off_packet_and_state (st : ArmState) :
    servos_off st true =
      ({ st with trace := st.trace ++
          [DevEvent.write [0x55, 0x55, 0x09, 0x14, 0x06, 1, 2, 3, 4, 5, 6]] }, none) ∧
    (servos_off st false).1.servos = st.servos := by
  constructor
  · rfl
  · rfl

/-- C8: `rest()` on the freshly constructed driver issues exactly 6 Move
packets, one per servo with that servo's `mid` position, in ascending id
order 1..6, then exactly one PowerOff packet; the trace holds no read
events. -/
theorem rest_issues_six_moves_then_poweroff :
    (rest armInit true).2 = none ∧
    (rest armInit true).1.trace =
      [ DevEvent.write (movePacket 1 1500 1500),
        DevEvent.write (movePacket 2 1430 1500),
        DevEvent.write (movePacket 3 1500 1500),
        DevEvent.write (movePacket 4 1670 1500),
        DevEvent.write (movePacket 5 1480 1500),
        DevEvent.write (movePacket 6 1570 1500),
        DevEvent.write powerOffPacket ] := by
  constructor
  · decide
  · decide

/-- C1 counterexample: resolving the out-of-range id "7" or the unknown name
"bogus" does not return a recoverable error — the source prints a message
and calls `sys.exit(1)` (modelled as `PyExit.sysExit 1`, a process abort);
the empty string matches the digit regex and `int('')` raises an uncaught
`ValueError`. -/
theorem servoIndex_exits_on_bad_reference :
    servoIndex (.str "7") = .error (.sysExit 1) ∧
    servoIndex (.str "bogus") = .error (.sysExit 1) ∧
    servoIndex (.str "") = .error (.exn "ValueError") := by
  refine ⟨by decide, by decide, by decide⟩

/-- C2 counterexample: a relative move from the Unknown state (tracked
position `-1`) does not fail with any error — `moveRel` silently returns
`None`, leaving the state unchanged and writing nothing. -/
theorem moveRel_unknown_returns_silently :
    moveRel armInit (.int 1) 50 100 true = (armInit, none) := by
  decide

/-- C3 counterexample: a ReadPositions reply whose count byte (offset 4) is
5 does not produce a recoverable `MalformedResponse` error — the source's
`assert count == 6` raises an uncaught `AssertionError` (a crash). -/
theorem read_pos_decode_count5_asserts :
    read_pos_decode [0x55, 0x55, 0x15, 0x15, 5] = .error (.exn "AssertionError") := by
  decide

/-- C6 counterexample: a move with the position token "oops" (neither a
landmark nor digits) does not return a recoverable `InvalidPositionValue`
error — the source prints a message and calls `sys.exit(1)` (modelled as
`PyExit.sysExit 1`, a process abort). -/
theorem moveTo_exits_on_bad_token :
    moveTo armInit (.int 1) (.str "oops") 0 true = (armInit, some (.sysExit 1)) := by
  decide

/-- C1 amended: resolving "7" (out-of-range id) or "bogus" (unknown name)
terminates the process via `sys.exit(1)`; resolving "" raises an uncaught
`ValueError` from `int('')`; and every possible resolution either succeeds
with a valid 0-based index or aborts the process in one of those two ways —
no failure is ever returned to the caller as a recoverable value. -/
theorem servoIndex_failures_abort_process :
    servoIndex (.str "7") = .error (.sysExit 1) ∧
    servoIndex (.str "bogus") = .error (.sysExit 1) ∧
    servoIndex (.str "") = .error (.exn "ValueError") ∧
    ∀ r : ServoRef,
      (∃ i : Int, servoIndex r = .ok i ∧ 0 ≤ i ∧ i < 6) ∨
      servoIndex r = .error (.sysExit 1) ∨
      servoIndex r = .error (.exn "ValueError") := by
  refine ⟨by decide, by decide, by decide, ?_⟩
  intro r
  have hlen : (sn.length : Int) = 6 := by rfl
  rcases r with n | s
  · unfold servoIndex
    dsimp only
    rw [hlen]
    split_ifs with h
    · right; left; rfl
    · left; exact ⟨n - 1, rfl, by omega, by omega⟩
  · unfold servoIndex
    dsimp only
    rw [hlen]
    split_ifs with h1 h2
    · right; right; rfl
    all_goals dsimp only
    all_goals split_ifs with h
    all_goals first
      | exact Or.inr (Or.inl rfl)
      | exact Or.inr (Or.inr rfl)
      | exact Or.inl ⟨_, rfl, by omega, by omega⟩

/-- C2 amended: `moveRel` on a servo whose tracked position is negative
(the Unknown state, never commanded) silently returns without any error,
never mutates the state, and writes no packet. -/
theorem moveRel_unknown_is_silent_noop (st : ArmState) (n dpos tm : Int)
    (w : Bool) (h1 : 1 ≤ n) (h2 : n ≤ 6)
    (hpos : (servoAt st (n - 1).toNat).pos < 0) :
    moveRel st (.int n) dpos tm w = (st, none) := by
  unfold servoAt at hpos
  unfold moveRel
  rw [servoIndex_int_ok n h1 h2]
  dsimp only
  rw [if_pos hpos]

/-- Witness for C2's amended theorem at servo 3 of the fresh driver. -/
theorem moveRel_unknown_is_silent_noop_witness :
    moveRel armInit (.int 3) (-50) 0 false = (armInit, none) :=
  moveRel_unknown_is_silent_noop armInit 3 (-50) 0 false (by decide) (by decide)
    (by decide)

/-- C6 amended: a move whose position token is neither a landmark
(`min`/`mid`/`max`) nor a digit-only string prints an error and terminates
the process via `sys.exit(1)` — it is a process abort, not a recoverable
typed result. -/
theorem moveTo_bad_token_exits (st : ArmState) (n tm : Int) (w : Bool)
    (tok : String) (h1 : 1 ≤ n) (h2 : n ≤ 6)
    (hmin : tok ≠ "min") (hmid : tok ≠ "mid") (hmax : tok ≠ "max")
    (hdig : isDigitsOnly tok = false) :
    moveTo st (.int n) (.str tok) tm w = (st, some (.sysExit 1)) := by
  unfold moveTo
  rw [servoIndex_int_ok n h1 h2]
  dsimp only
  unfold resolvePos
  dsimp only
  rw [if_neg hmin, if_neg hmid, if_neg hmax, if_neg (by simp [hdig])]

/-- Witness for C6's amended theorem at the token "wat". -/
theorem moveTo_bad_token_exits_witness :
    moveTo armInit (.int 2) (.str "wat") 7 false = (armInit, some (.sysExit 1)) :=
  moveTo_bad_token_exits armInit 2 7 false "wat" (by decide) (by decide)
    (by decide) (by decide) (by decide) (by decide)

/-- C4: for every state whose six descriptors satisfy `min ≤ max`, a
`move_to` at any integer position `p` succeeds, stores the clipped position,
and writes a Move packet whose position field is that clipped value; the
clipped value always lies in `[min, max]`, and equals `p` whenever `p` is
already in range (out-of-range requests are silently clipped, not
rejected). -/
theorem moveTo_clips_into_range (st : ArmState) (n p tm : Int)
    (h1 : 1 ≤ n) (h2 : n ≤ 6) (hlen : st.servos.length = 6)
    (hwf : ∀ s ∈ st.servos, s.min ≤ s.max) :
    moveTo st (.int n) (.int p) tm true =
      ({ servos := st.servos.set (n - 1).toNat
            ({ servoAt st (n - 1).toNat with
                pos := clipPos (servoAt st (n - 1).toNat) p }),
         trace := st.trace ++
            [.write (movePacket (servoAt st (n - 1).toNat).id
                (clipPos (servoAt st (n - 1).toNat) p) tm)] }, none) ∧
    (servoAt st (n - 1).toNat).min ≤ clipPos (servoAt st (n - 1).toNat) p ∧
    clipPos (servoAt st (n - 1).toNat) p ≤ (servoAt st (n - 1).toNat).max ∧
    ((servoAt st (n - 1).toNat).min ≤ p → p ≤ (servoAt st (n - 1).toNat).max →
      clipPos (servoAt st (n - 1).toNat) p = p) := by
  have hmem : servoAt st (n - 1).toNat ∈ st.servos := by
    apply servoAt_mem
    omega
  have hmm := hwf _ hmem
  refine ⟨?_, (clipPos_bounds _ p hmm).1, (clipPos_bounds _ p hmm).2,
    fun hl hr => clipPos_id_of_in_range _ p hl hr⟩
  unfold moveTo
  rw [servoIndex_int_ok n h1 h2]
  rfl

/-- Witness for C4 at servo 2 of the fresh driver with the out-of-range
request 5000 (clipped to the max 2600). -/
theorem moveTo_clips_into_range_witness :
    moveTo armInit (.int 2) (.int 5000) 0 true =
      ({ servos := servoinfoInit.set 1
            ({ servoAt armInit 1 with pos := clipPos (servoAt armInit 1) 5000 }),
         trace := [.write (movePacket (servoAt armInit 1).id
            (clipPos (servoAt armInit 1) 5000) 0)] }, none) ∧
    (servoAt armInit 1).min ≤ clipPos (servoAt armInit 1) 5000 ∧
    clipPos (servoAt armInit 1) 5000 ≤ (servoAt armInit 1).max ∧
    ((servoAt armInit 1).min ≤ 5000 → (5000 : Int) ≤ (servoAt armInit 1).max →
      clipPos (servoAt armInit 1) 5000 = 5000) :=
  moveTo_clips_into_range armInit 2 5000 0 (by decide) (by decide) (by decide)
    (by decide)

/-- C10: when the transport write raises, `moveTo` (and `moveRel` from a
known position) has already stored the clipped target in the servo table:
the mutation precedes the write and is not rolled back — the trace gains no
packet but the tracked position is the new target. -/
theorem state_updated_before_transport_write (st : ArmState)
    (n p dpos tm : Int) (h1 : 1 ≤ n) (h2 : n ≤ 6) :
    moveTo st (.int n) (.int p) tm false =
      ({ servos := st.servos.set (n - 1).toNat
            ({ servoAt st (n - 1).toNat with
                pos := clipPos (servoAt st (n - 1).toNat) p }),
         trace := st.trace }, some (.exn "TransportError")) ∧
    (0 ≤ (servoAt st (n - 1).toNat).pos →
      moveRel st (.int n) dpos tm false =
        ({ servos := st.servos.set (n - 1).toNat
              ({ servoAt st (n - 1).toNat with
                  pos := clipPos (servoAt st (n - 1).toNat)
                    ((servoAt st (n - 1).toNat).pos + dpos) }),
           trace := st.trace }, some (.exn "TransportError"))) := by
  constructor
  · unfold moveTo
    rw [servoIndex_int_ok n h1 h2]
    rfl
  · intro hpos
    unfold servoAt at hpos
    unfold moveRel
    rw [servoIndex_int_ok n h1 h2]
    dsimp only
    rw [if_neg (by omega)]
    rfl

/-- Witness for C10: after an absolute move of servo 1 to 2000, a failing
`moveTo` and a failing `moveRel` both leave the freshly clipped target in
the table. -/
theorem state_updated_before_transport_write_witness :
    moveTo (moveTo armInit (.int 1) (.int 2000) 0 true).1 (.int 1) (.int 2100) 0 false =
      ({ servos := (moveTo armInit (.int 1) (.int 2000) 0 true).1.servos.set 0
            ({ servoAt (moveTo armInit (.int 1) (.int 2000) 0 true).1 0 with
                pos := clipPos (servoAt (moveTo armInit (.int 1) (.int 2000) 0 true).1 0) 2100 }),
         trace := (moveTo armInit (.int 1) (.int 2000) 0 true).1.trace },
        some (.exn "TransportError")) ∧
    (0 ≤ (servoAt (moveTo armInit (.int 1) (.int 2000) 0 true).1 0).pos →
      moveRel (moveTo armInit (.int 1) (.int 2000) 0 true).1 (.int 1) 75 0 false =
        ({ servos := (moveTo armInit (.int 1) (.int 2000) 0 true).1.servos.set 0
              ({ servoAt (moveTo armInit (.int 1) (.int 2000) 0 true).1 0 with
                  pos := clipPos (servoAt (moveTo armInit (.int 1) (.int 2000) 0 true).1 0)
                    ((servoAt (moveTo armInit (.int 1) (.int 2000) 0 true).1 0).pos + 75) }),
           trace := (moveTo armInit (.int 1) (.int 2000) 0 true).1.trace },
          some (.exn "TransportError"))) :=
  state_updated_before_transport_write (moveTo armInit (.int 1) (.int 2000) 0 true).1
    1 2100 75 0 (by decide) (by decide)

theorem read_pos_groups_error_eq (ret : List Int) :
    ∀ is : List Nat, ∀ e : PyExit,
      read_pos_groups ret is = .error e → e = .exn "IndexError" := by
  intro is
  induction is with
  | nil => intro e h; exact absurd h (by simp [read_pos_groups])
  | cons j is ih =>
      intro e h
      unfold read_pos_groups at h
      split at h
      · split at h
        · exact absurd h (by simp)
        · next heq =>
            injection h with h'
            exact h' ▸ ih _ heq
      · injection h with h'
        exact h'.symm

theorem read_pos_groups_ok_bounds (ret : List Int) :
    ∀ is : List Nat, ∀ v : List Int,
      read_pos_groups ret is = .ok v → ∀ i ∈ is, 5 + 3 * i + 2 < ret.length := by
  intro is
  induction is with
  | nil => intro v _ i hi; cases hi
  | cons j is ih =>
      intro v h i hi
      unfold read_pos_groups at h
      split at h
      · next x lo hi2 hx hlo hhi =>
          rcases List.mem_cons.mp hi with rfl | hmem
          · by_contra hge
            rw [List.get?_eq_none.mpr (by omega)] at hhi
            exact Option.noConfusion hhi
          · split at h
            · next heq => exact ih _ heq i hmem
            · exact absurd h (by simp)
      · exact absurd h (by simp)

theorem ediv_emod_recombine (x : Int) :
    Int.ediv x 256 * 256 + Int.emod x 256 = x := by
  rw [mul_comm]
  exact Int.ediv_add_emod x 256

theorem unpackU16LE_wrong_len (l : List Int) (h : l.length ≠ 2) :
    unpackU16LE l = .error (.exn "StructError") := by
  rcases l with _ | ⟨x, _ | ⟨y, _ | ⟨z, t⟩⟩⟩
  · rfl
  · rfl
  · exact absurd rfl h
  · rfl

/-- C3 amended: the count byte is `ret[4]` (its absence raises an uncaught
`IndexError`); `assert count == 6` raises an uncaught `AssertionError` when
the count is not 6 — a crash, not a recoverable `MalformedResponse`; a
count-6 reply shorter than the 23 expected bytes raises an uncaught
`IndexError`; and a reply with count 6 and six well-formed `(id, lo, hi)`
groups decodes to exactly the six positions `[p1, ..., p6]` for any
`p_i` in `0..65535` — the id bytes are read and discarded, so the result
carries no `(id, pos)` pairs. -/
theorem read_pos_decode_behaviour :
    (∀ ret : List Int, ∀ c : Int, ret.get? 4 = some c → c ≠ 6 →
        read_pos_decode ret = .error (.exn "AssertionError")) ∧
    (∀ ret : List Int, ret.get? 4 = none →
        read_pos_decode ret = .error (.exn "IndexError")) ∧
    (∀ ret : List Int, ret.get? 4 = some 6 → ret.length < 23 →
        read_pos_decode ret = .error (.exn "IndexError")) ∧
    (∀ a b c d e f : Int,
        0 ≤ a → a < 65536 → 0 ≤ b → b < 65536 → 0 ≤ c → c < 65536 →
        0 ≤ d → d < 65536 → 0 ≤ e → e < 65536 → 0 ≤ f → f < 65536 →
        read_pos_decode (mkPosReply a b c d e f) = .ok [a, b, c, d, e, f]) := by
  refine ⟨?_, ?_, ?_, ?_⟩
  · intro ret c h4 hc
    unfold read_pos_decode
    rw [h4]
    dsimp only
    rw [if_neg hc]
  · intro ret h4
    unfold read_pos_decode
    rw [h4]
  · intro ret h4 hlen
    unfold read_pos_decode
    rw [h4]
    dsimp only
    rw [if_pos rfl]
    cases hg : read_pos_groups ret (List.range 6) with
    | ok v =>
        have hb := read_pos_groups_ok_bounds ret (List.range 6) v hg 5 (by decide)
        exact absurd hlen (by omega)
    | error e =>
        rw [read_pos_groups_error_eq ret (List.range 6) e hg]
  · intro a b c d e f ha0 ha1 hb0 hb1 hc0 hc1 hd0 hd1 he0 he1 hf0 hf1
    have hr : List.range 6 = [0, 1, 2, 3, 4, 5] := rfl
    unfold read_pos_decode
    rw [hr]
    simp only [mkPosReply, List.get?, read_pos_groups]
    norm_num [ediv_emod_recombine]

/-- Witness for C3's amended theorem: a well-formed reply carrying the six
rest positions decodes to exactly those positions. -/
theorem read_pos_decode_behaviour_witness :
    read_pos_decode (mkPosReply 1500 1430 1500 1670 1480 1570) =
      .ok [1500, 1430, 1500, 1670, 1480, 1570] :=
  read_pos_decode_behaviour.2.2.2 1500 1430 1500 1670 1480 1570
    (by decide) (by decide) (by decide) (by decide) (by decide) (by decide)
    (by decide) (by decide) (by decide) (by decide) (by decide) (by decide)

/-- C7: `getBattery` degrades to the sentinel `-1` ("battery unknown")
whenever the reply is too short for the 16-bit field at offset 4 — the
`struct.error` is caught, never propagated — and for a reply holding bytes
at offsets 4 and 5 it returns the little-endian 16-bit value decoded from
offset 4. -/
theorem getBattery_behaviour :
    (∀ ret : List Int, ret.length < 6 → getBattery ret = -1) ∧
    (∀ ret : List Int, ∀ lo hi : Int,
        ret.get? 4 = some lo → ret.get? 5 = some hi →
        getBattery ret = lo + 256 * hi) := by
  constructor
  · intro ret h
    unfold getBattery
    rw [unpackU16LE_wrong_len]
    simp only [pySlice, List.length_drop, List.length_take]
    omega
  · intro ret lo hi h4 h5
    rcases ret with _ | ⟨r0, _ | ⟨r1, _ | ⟨r2, _ | ⟨r3, _ | ⟨r4, _ | ⟨r5, rest⟩⟩⟩⟩⟩⟩ <;>
      simp_all [getBattery, pySlice, unpackU16LE, List.get?]

/-- Witness for C7: a short reply gives the sentinel, a six-byte reply
decodes 8000 mV from bytes `40 1F` at offset 4. -/
theorem getBattery_behaviour_witness :
    getBattery [0x55, 0x55, 2] = -1 ∧
    getBattery [0x55, 0x55, 2, 15, 0x40, 0x1F] = 0x40 + 256 * 0x1F :=
  ⟨getBattery_behaviour.1 [0x55, 0x55, 2] (by decide),
   getBattery_behaviour.2 [0x55, 0x55, 2, 15, 0x40, 0x1F] 0x40 0x1F rfl rfl⟩
